import Mathlib

/-!
Verification of the natural-language specification of `duckdb-acp-slack`
(`src/duckdb_acp_slack/__init__.py`) against a shallow embedding of its code.

The program is a Slack bot: two event handlers (`handle_mention`,
`handle_message`) extract a prompt from an inbound event and drive a single
backend call (`query_claude`), which serializes a query result to a summary
string and an optional CSV payload.

Modelling conventions:
* Python strings are Lean `String`s; a dict field that may be absent is an
  `Option String` (`event.get("text", "")` becomes `(e.text).getD ""`).
* A result-set value is modelled by its `str()` image: `Option String`, where
  `none` is Python `None` (rendered `""` in the CSV) and `some s` a value whose
  stringification is `s`.
* The behaviour of the external backend during one `query_claude` call is a
  `BackendRun`: either the `CLAUDE <prompt>;` command succeeds with columns
  and rows, or executing/fetching raises an exception whose `str()` is a given
  string.  `get_connection()` runs before the `try` block and is outside the
  modelled behaviours; all modelled failures are raised inside the `try`.
* Handler side effects (Slack API calls, backend invocation) are reified as an
  ordered `List Effect`.  The `ts` that Slack assigns to the acknowledgement
  message posted by `chat_postMessage` is an input parameter `ackTs`; the
  in-place edit `chat_update(ts=ack_response["ts"], ...)` shows up as a
  `chatUpdate` action carrying that same `ackTs`.
* Python truthiness tests on strings/`None` (`if event.get("bot_id")`,
  `if csv_content:`, `if not prompt:`) are modelled exactly.
-/

/-- Python whitespace for `str.strip()` and the regex class `\s`, restricted to
the ASCII whitespace characters. -/
def isWS (c : Char) : Bool :=
  c = ' ' || c = '\t' || c = '\n' || c = '\r' || c = '\x0b' || c = '\x0c'

/-- The regex character class `[A-Z0-9]` used in the mention-token pattern. -/
def isAZ09 (c : Char) : Bool :=
  ('A' ≤ c && c ≤ 'Z') || ('0' ≤ c && c ≤ '9')

/-- Python `str.strip()` on a character list: drop whitespace from both ends. -/
def pyStripL (l : List Char) : List Char :=
  ((l.dropWhile isWS).reverse.dropWhile isWS).reverse

/-- Python `str.strip()`. -/
def pyStrip (s : String) : String :=
  String.mk (pyStripL s.data)

/-- Attempt to match the regex `<@[A-Z0-9]+>\s*` at the head of `l`; on success
return the remainder of the input after the match.  Greedy matching of
`[A-Z0-9]+` needs no backtracking because `>` is not in the class, and the
trailing `\s*` greedily takes the maximal whitespace run. -/
def matchMention (l : List Char) : Option (List Char) :=
  match l with
  | c1 :: c2 :: rest =>
    if c1 = '<' && c2 = '@' then
      if (rest.takeWhile isAZ09).isEmpty then none
      else
        match rest.dropWhile isAZ09 with
        | c3 :: rest2 => if c3 = '>' then some (rest2.dropWhile isWS) else none
        | [] => none
    else none
  | _ => none

/-- Fuelled scanner for `re.sub(r"<@[A-Z0-9]+>\s*", "", text)`: at each
position, if the pattern matches, drop the match and continue after it;
otherwise keep the character and advance by one.  Each step strictly shortens
the input (a match consumes at least four characters), so fuel equal to the
input length always suffices; `subMentionFuel_irrel` below proves the fuel is
irrelevant from that point on. -/
def subMentionFuel : Nat → List Char → List Char
  | _, [] => []
  | 0, l => l
  | fuel + 1, c :: cs =>
    match matchMention (c :: cs) with
    | some rest => subMentionFuel fuel rest
    | none => c :: subMentionFuel fuel cs

/-- Python `re.sub(r"<@[A-Z0-9]+>\s*", "", ·)` on a character list. -/
def subMention (l : List Char) : List Char :=
  subMentionFuel l.length l

/-- Python `re.search(r"<@[A-Z0-9]+>", text)` viewed as a Boolean: does a
mention token occur anywhere in the text?  (Whether the trailing `\s*` is part
of the pattern does not change existence of a match, since `\s*` matches the
empty string.) -/
def hasMention : List Char → Bool
  | [] => false
  | c :: cs => (matchMention (c :: cs)).isSome || hasMention cs

/-- Prompt extraction of the mention handler, line 90 of the source:
`re.sub(r"<@[A-Z0-9]+>\s*", "", text).strip()`. -/
def extractPrompt (text : String) : String :=
  String.mk (pyStripL (subMention text.data))

/-- What the backend does during one `query_claude` call: the `CLAUDE` command
either produces a result set (column names from `result.description`, rows
from `fetchall()`), or executing/fetching raises an exception with the given
`str()` image. -/
inductive BackendRun where
  | ok (columns : List String) (rows : List (List (Option String)))
  | raises (msg : String)

/-- The state of the per-call DuckDB connection. -/
inductive Conn where
  | opened
  | closed
deriving DecidableEq

/-- Effect of `conn.close()`. -/
def Conn.close : Conn → Conn := fun _ => Conn.closed

/-- Whether the connection has been closed. -/
def Conn.isClosed : Conn → Bool
  | .opened => false
  | .closed => true

/-- Stringification of one result value inside the CSV builder, line 62:
`str(v) if v is not None else ""`. -/
def valueStr : Option String → String
  | some s => s
  | none => ""

/-- One CSV data line: `",".join(str(v) if v is not None else "" for v in row)`. -/
def csvLine (row : List (Option String)) : String :=
  String.intercalate "," (row.map valueStr)

/-- The CSV payload built on lines 60-63: header line of comma-joined column
names, then one comma-joined line per row, all joined by newlines.  No quoting
or escaping anywhere. -/
def buildCsv (columns : List String) (rows : List (List (Option String))) : String :=
  String.intercalate "\n" (String.intercalate "," columns :: rows.map csvLine)

/-- Result of one `query_claude` call: the returned `(message, csv_content)`
pair together with the final state of the connection opened for the call. -/
structure QCResult where
  message : String
  csv : Option String
  connClosed : Bool
deriving DecidableEq

/-- The body of the `try` block of `query_claude` (lines 52-66): raising
propagates as `Except.error`, otherwise the `(message, csv_content)` pair is
returned. -/
def queryBody (b : BackendRun) : Except String (String × Option String) :=
  match b with
  | .raises e => .error e
  | .ok columns rows =>
    if rows.isEmpty then
      .ok ("_No results_", none)
    else
      .ok ("Returned " ++ toString rows.length ++ " row(s), " ++
             toString columns.length ++ " column(s)",
           some (buildCsv columns rows))

/-- `query_claude` (lines 47-71): run the `try` body, convert any raised
exception to the `*Error:* ...` message in the `except` clause, and close the
connection in the `finally` clause on the way out of every branch. -/
def query_claude (b : BackendRun) : QCResult :=
  let conn := Conn.opened
  let handled :=
    match queryBody b with
    | .ok r => r
    | .error e => ("*Error:* `" ++ e ++ "`", none)
  let connAfter := conn.close
  { message := handled.1, csv := handled.2, connClosed := connAfter.isClosed }

/-- The fields of an inbound Slack event that the handlers read.  `Option`
fields may be absent from the payload (`event.get(...)`). -/
structure SlackEvent where
  text : Option String
  channel : String
  ts : String
  thread_ts : Option String
  bot_id : Option String
  subtype : Option String

/-- One observable side effect of a handler, in the order performed: a Slack
API call or the invocation of `query_claude` with a given prompt. -/
inductive Effect where
  | reactionsAdd (channel timestamp name : String)
  | say (text channel thread_ts : String)
  | chatPostMessage (channel thread_ts text : String)
  | chatUpdate (channel ts text : String)
  | filesUpload (channel thread_ts content filename title : String)
  | backendCall (prompt : String)
deriving DecidableEq

/-- Python truthiness of `event.get(...)` for a string-valued field: `None`
and the empty string are falsy. -/
def truthy : Option String → Bool
  | none => false
  | some s => !(s = "")

/-- The fixed instructional reply of the empty-prompt mention branch, line 94. -/
def instructionalReply : String :=
  "Please include a question or query after mentioning me."

/-- The acknowledgement placeholder `f"Working on: _{prompt}_"`. -/
def workingText (prompt : String) : String :=
  "Working on: _" ++ prompt ++ "_"

/-- The edited message text `f"*Query:* _{prompt}_\n\n{msg}"`. -/
def resolvedText (prompt message : String) : String :=
  "*Query:* _" ++ prompt ++ "_\n\n" ++ message

/-- The `if csv_content:` upload step shared by both handlers (lines 116-123
and 161-168): upload `results.csv` exactly when the payload is present and, by
Python truthiness, non-empty. -/
def uploadActions (channel thread_ts : String) (csv : Option String) : List Effect :=
  match csv with
  | some c => if c = "" then [] else
      [Effect.filesUpload channel thread_ts c "results.csv" "Query Results"]
  | none => []

/-- The `app_mention` handler (lines 79-126).  `ackTs` is the `ts` Slack
assigns to the acknowledgement message; `b` is the backend behaviour for the
single `query_claude` call.  The reaction is attempted first; its possible
failure is swallowed by the source and changes nothing downstream, so the
attempt is recorded unconditionally. -/
def handle_mention (e : SlackEvent) (ackTs : String) (b : BackendRun) : List Effect :=
  let text := e.text.getD ""
  let channel := e.channel
  let ts := e.ts
  let thread_ts := e.thread_ts.getD ts
  let reaction := Effect.reactionsAdd channel ts "eyes"
  let prompt := extractPrompt text
  if prompt = "" then
    [reaction, Effect.say instructionalReply channel thread_ts]
  else
    let qc := query_claude b
    [reaction,
     Effect.chatPostMessage channel thread_ts (workingText prompt),
     Effect.backendCall prompt,
     Effect.chatUpdate channel ackTs (resolvedText prompt qc.message)]
    ++ uploadActions channel thread_ts qc.csv

/-- The `message` handler (lines 128-171): drop bot-authored and subtyped
events, drop texts containing a mention token anywhere, silently ignore an
empty trimmed prompt, and otherwise run the same acknowledge-execute-resolve
sequence as the mention handler (without the reaction). -/
def handle_message (e : SlackEvent) (ackTs : String) (b : BackendRun) : List Effect :=
  if truthy e.bot_id || truthy e.subtype then []
  else
    let text := e.text.getD ""
    if hasMention text.data then []
    else
      let channel := e.channel
      let thread_ts := e.thread_ts.getD e.ts
      let prompt := pyStrip text
      if prompt = "" then []
      else
        let qc := query_claude b
        [Effect.chatPostMessage channel thread_ts (workingText prompt),
         Effect.backendCall prompt,
         Effect.chatUpdate channel ackTs (resolvedText prompt qc.message)]
        ++ uploadActions channel thread_ts qc.csv

/-- A mention event authored by a bot (`bot_id` present and non-empty): the
mention handler applies no bot filter to it. -/
def botMentionEvent : SlackEvent :=
  { text := some "<@U123> hi", channel := "C1", ts := "11", thread_ts := none,
    bot_id := some "B77", subtype := none }

/-- A plain message event authored by a bot. -/
def botMessageEvent : SlackEvent :=
  { text := some "hello", channel := "C1", ts := "1", thread_ts := none,
    bot_id := some "B2", subtype := none }

/-- A mention event whose text is just the mention token and whitespace. -/
def bareMentionEvent : SlackEvent :=
  { text := some "<@UA> ", channel := "C9", ts := "5", thread_ts := none,
    bot_id := none, subtype := none }

/-- A plain message event with a mention token in the middle of the text. -/
def midMentionEvent : SlackEvent :=
  { text := some "hey <@U123> there", channel := "C2", ts := "3", thread_ts := none,
    bot_id := none, subtype := none }

/-- A plain message event whose text is only whitespace. -/
def blankTextEvent : SlackEvent :=
  { text := some "   ", channel := "C4", ts := "9", thread_ts := none,
    bot_id := none, subtype := none }

/-- The mention event of the specification's end-to-end scenario. -/
def salesMentionEvent : SlackEvent :=
  { text := some "<@U123> show me sales", channel := "C1", ts := "1", thread_ts := none,
    bot_id := none, subtype := none }

/-- An event whose payload has no `text` field at all. -/
def noTextEvent : SlackEvent :=
  { text := none, channel := "C3", ts := "7", thread_ts := none,
    bot_id := none, subtype := none }

/-- The backend run of the specification's worked example: columns `a`, `b`
and rows `[1, "x"]` and `[2, None]`. -/
def exampleRun : BackendRun :=
  .ok ["a", "b"] [[some "1", some "x"], [some "2", none]]

/-- A successful mention match strictly shortens the input. -/
theorem matchMention_length {l r : List Char} (h : matchMention l = some r) :
    r.length < l.length := by
  unfold matchMention at h
  split at h
  · split at h
    · split at h
      · exact absurd h (by simp)
      · split at h
        · split at h
          · rename_i l0 c1 c2 rest h12 hne x c3 rest2 heq hgt
            have hr : r = rest2.dropWhile isWS := by
              injection h with h2
              exact h2.symm
            have hlen1 : r.length ≤ rest2.length :=
              hr ▸ (List.dropWhile_sublist isWS).length_le
            have hlen2 : (c3 :: rest2).length ≤ rest.length :=
              heq ▸ (List.dropWhile_sublist isAZ09).length_le
            simp only [List.length_cons] at hlen2 ⊢
            omega
          · exact absurd h (by simp)
        · exact absurd h (by simp)
    · exact absurd h (by simp)
  · exact absurd h (by simp)

/-- With fuel at least the input length, the fuelled scanner does not depend
on the exact amount of fuel; hence `subMention` is the limit of the scanner. -/
theorem subMentionFuel_irrel : ∀ (f1 : Nat), ∀ (f2 : Nat) (l : List Char),
    l.length ≤ f1 → l.length ≤ f2 → subMentionFuel f1 l = subMentionFuel f2 l := by
  intro f1
  induction f1 with
  | zero =>
    intro f2 l h1 _
    have hl : l = [] := List.length_eq_zero.mp (Nat.le_zero.mp h1)
    subst hl
    cases f2 <;> rfl
  | succ f ih =>
    intro f2 l h1 h2
    cases l with
    | nil => cases f2 <;> rfl
    | cons c cs =>
      cases f2 with
      | zero => simp at h2
      | succ f2 =>
        simp only [subMentionFuel]
        cases hm : matchMention (c :: cs) with
        | some rest =>
          have hlt := matchMention_length hm
          simp only [List.length_cons] at h1 h2 hlt
          exact ih f2 rest (by omega) (by omega)
        | none =>
          simp only [List.length_cons] at h1 h2
          rw [ih f2 cs (by omega) (by omega)]

/-- A text with no mention token anywhere is left unchanged by the scanner,
whatever the fuel. -/
theorem hasMention_false_fix : ∀ (l : List Char) (fuel : Nat),
    hasMention l = false → subMentionFuel fuel l = l := by
  intro l
  induction l with
  | nil => intro fuel _; cases fuel <;> rfl
  | cons c cs ih =>
    intro fuel h
    cases fuel with
    | zero => rfl
    | succ f =>
      cases hm : matchMention (c :: cs) with
      | some rest => simp [hasMention, hm] at h
      | none =>
        have hcs : hasMention cs = false := by
          simp [hasMention, hm] at h
          exact h
        simp only [subMentionFuel]
        rw [hm]
        simp [ih f hcs]

/-- Dropping a prefix cannot create a mention token. -/
theorem hasMention_dropWhile (p : Char → Bool) : ∀ {l : List Char},
    hasMention l = false → hasMention (l.dropWhile p) = false := by
  intro l
  induction l with
  | nil => intro h; simpa using h
  | cons c cs ih =>
    intro h
    have hparts : (matchMention (c :: cs)).isSome = false ∧ hasMention cs = false := by
      simpa [hasMention] using h
    rw [List.dropWhile_cons]
    by_cases hc : p c = true
    · simp only [hc, if_true]
      exact ih hparts.2
    · simp only [hc, if_false]
      exact h

/-- Dropping a while-prefix twice is the same as dropping it once. -/
theorem dropWhile_dropWhile (p : Char → Bool) (l : List Char) :
    (l.dropWhile p).dropWhile p = l.dropWhile p := by
  induction l with
  | nil => rfl
  | cons c cs ih =>
    rw [List.dropWhile_cons]
    by_cases hc : p c = true
    · simp only [hc, if_true]
      exact ih
    · simp [hc]

/-- The character after an identifier run must be `>` for a match; `>` itself
is outside the class `[A-Z0-9]`. -/
theorem isAZ09_gt : isAZ09 '>' = false := by decide

/-- Computation of the mention matcher on a well-formed leading mention token:
`<@ids>` followed by whitespace `ws` and then `rest` matches, consuming the
token and all whitespace up to the first non-whitespace of `rest`. -/
theorem matchMention_structured (ids ws rest : List Char)
    (hids : ids ≠ []) (hidsP : ∀ c ∈ ids, isAZ09 c = true)
    (hws : ∀ c ∈ ws, isWS c = true) :
    matchMention ('<' :: '@' :: (ids ++ '>' :: (ws ++ rest))) =
      some (rest.dropWhile isWS) := by
  have h1 : List.takeWhile isAZ09 (ids ++ '>' :: (ws ++ rest)) = ids := by
    rw [List.takeWhile_append_of_pos hidsP]
    simp [List.takeWhile_cons, isAZ09_gt]
  have h2 : List.dropWhile isAZ09 (ids ++ '>' :: (ws ++ rest)) = '>' :: (ws ++ rest) := by
    rw [List.dropWhile_append_of_pos hidsP]
    simp [List.dropWhile_cons, isAZ09_gt]
  have h3 : List.dropWhile isWS (ws ++ rest) = List.dropWhile isWS rest :=
    List.dropWhile_append_of_pos hws
  simp only [matchMention, h1, h2, h3]
  simp [hids]

/-- If the head of the text matches the mention pattern and the remainder has
no further mention token, the substitution is exactly that remainder. -/
theorem subMention_cons_match {c : Char} {cs rest : List Char}
    (hm : matchMention (c :: cs) = some rest) (hrest : hasMention rest = false) :
    subMention (c :: cs) = rest := by
  unfold subMention
  simp only [List.length_cons, subMentionFuel]
  rw [hm]
  exact hasMention_false_fix rest cs.length hrest

/-- The accumulator of `String.intercalate.go` only ever grows. -/
theorem intercalate_go_length (s : String) : ∀ (as : List String) (acc : String),
    acc.length ≤ (String.intercalate.go acc s as).length := by
  intro as
  induction as with
  | nil => intro acc; exact Nat.le_refl _
  | cons a as ih =>
    intro acc
    have hstep : String.intercalate.go acc s (a :: as) =
        String.intercalate.go (acc ++ s ++ a) s as := rfl
    rw [hstep]
    have h1 : acc.length ≤ (acc ++ s ++ a).length := by
      rw [String.length_append, String.length_append]
      omega
    exact Nat.le_trans h1 (ih _)

/-- A CSV payload built from at least one row is never the empty string: it
contains at least the newline between the header and the first data line. -/
theorem buildCsv_length_pos (columns : List String) (r : List (Option String))
    (rs : List (List (Option String))) : 0 < (buildCsv columns (r :: rs)).length := by
  have hstep : buildCsv columns (r :: rs) =
      String.intercalate.go (String.intercalate "," columns ++ "\n" ++ csvLine r)
        "\n" (rs.map csvLine) := rfl
  rw [hstep]
  have hle := intercalate_go_length "\n" (rs.map csvLine)
    (String.intercalate "," columns ++ "\n" ++ csvLine r)
  have hlen : 0 < (String.intercalate "," columns ++ "\n" ++ csvLine r).length := by
    rw [String.length_append, String.length_append]
    have hnl : ("\n" : String).length = 1 := rfl
    omega
  omega

/-- Any CSV payload `query_claude` actually returns is non-empty, so the
Python truthiness test `if csv_content:` coincides with presence. -/
theorem query_csv_ne_empty {b : BackendRun} {c : String}
    (h : (query_claude b).csv = some c) : c ≠ "" := by
  cases b with
  | raises e => simp [query_claude, queryBody] at h
  | ok columns rows =>
    cases rows with
    | nil => simp [query_claude, queryBody] at h
    | cons r rs =>
      have hc : buildCsv columns (r :: rs) = c := by
        simpa [query_claude, queryBody] using h
      intro hemp
      have := buildCsv_length_pos columns r rs
      rw [hc, hemp] at this
      exact absurd this (by decide)

/-- Shape of the mention handler on an empty extracted prompt. -/
theorem handle_mention_empty (e : SlackEvent) (ackTs : String) (b : BackendRun)
    (h : extractPrompt (e.text.getD "") = "") :
    handle_mention e ackTs b =
      [Effect.reactionsAdd e.channel e.ts "eyes",
       Effect.say instructionalReply e.channel (e.thread_ts.getD e.ts)] := by
  unfold handle_mention
  simp [h]

/-- Shape of the mention handler on a non-empty extracted prompt. -/
theorem handle_mention_nonempty (e : SlackEvent) (ackTs : String) (b : BackendRun)
    (h : extractPrompt (e.text.getD "") ≠ "") :
    handle_mention e ackTs b =
      [Effect.reactionsAdd e.channel e.ts "eyes",
       Effect.chatPostMessage e.channel (e.thread_ts.getD e.ts)
         (workingText (extractPrompt (e.text.getD ""))),
       Effect.backendCall (extractPrompt (e.text.getD "")),
       Effect.chatUpdate e.channel ackTs
         (resolvedText (extractPrompt (e.text.getD "")) (query_claude b).message)]
      ++ uploadActions e.channel (e.thread_ts.getD e.ts) (query_claude b).csv := by
  unfold handle_mention
  simp [h]

/-- The message handler ignores bot-authored, subtyped, and mention-bearing
events. -/
theorem handle_message_filtered (e : SlackEvent) (ackTs : String) (b : BackendRun)
    (h : truthy e.bot_id = true ∨ truthy e.subtype = true ∨
         hasMention (e.text.getD "").data = true) :
    handle_message e ackTs b = [] := by
  unfold handle_message
  rcases h with h | h | h
  · simp [h]
  · simp [h]
  · split
    · rfl
    · simp [h]

/-- The message handler ignores an empty trimmed prompt silently. -/
theorem handle_message_empty (e : SlackEvent) (ackTs : String) (b : BackendRun)
    (h1 : truthy e.bot_id = false) (h2 : truthy e.subtype = false)
    (h3 : hasMention (e.text.getD "").data = false)
    (h4 : pyStrip (e.text.getD "") = "") :
    handle_message e ackTs b = [] := by
  unfold handle_message
  simp [h1, h2, h3, h4]

/-- Shape of the message handler on an event that survives all filters with a
non-empty trimmed prompt. -/
theorem handle_message_nonempty (e : SlackEvent) (ackTs : String) (b : BackendRun)
    (h1 : truthy e.bot_id = false) (h2 : truthy e.subtype = false)
    (h3 : hasMention (e.text.getD "").data = false)
    (h4 : pyStrip (e.text.getD "") ≠ "") :
    handle_message e ackTs b =
      [Effect.chatPostMessage e.channel (e.thread_ts.getD e.ts)
         (workingText (pyStrip (e.text.getD ""))),
       Effect.backendCall (pyStrip (e.text.getD "")),
       Effect.chatUpdate e.channel ackTs
         (resolvedText (pyStrip (e.text.getD "")) (query_claude b).message)]
      ++ uploadActions e.channel (e.thread_ts.getD e.ts) (query_claude b).csv := by
  unfold handle_message
  simp [h1, h2, h3, h4]

/-- C1: for every query result with at least one row, `query_claude` returns
the summary `"Returned N row(s), M column(s)"` and a CSV whose first line is
the comma-joined column names and whose subsequent lines are, row by row in
order, the comma-joined stringified values (None rendering as the empty
string, no quoting or escaping), all joined by newlines. -/
theorem claim_c1_csv_and_summary (columns : List String)
    (rows : List (List (Option String))) (h : rows ≠ []) :
    (query_claude (.ok columns rows)).message =
      "Returned " ++ toString rows.length ++ " row(s), " ++
        toString columns.length ++ " column(s)" ∧
    (query_claude (.ok columns rows)).csv =
      some (String.intercalate "\n"
        (String.intercalate "," columns ::
          rows.map (fun row => String.intercalate ","
            (row.map valueStr)))) := by
  have hne : rows.isEmpty = false := by
    simpa using h
  constructor
  · simp [query_claude, queryBody, hne]
  · simp [query_claude, queryBody, hne]
    rfl

/-- Witness for C1 at the specification's worked example: columns `a`, `b`
and rows `[1, "x"]`, `[2, None]` give exactly the CSV `"a,b\n1,x\n2,"` and the
summary `"Returned 2 row(s), 2 column(s)"`. -/
theorem claim_c1_witness :
    ([[some "1", some "x"], [some "2", none]] : List (List (Option String))) ≠ [] ∧
    (query_claude (.ok ["a", "b"] [[some "1", some "x"], [some "2", none]])).message =
      "Returned 2 row(s), 2 column(s)" ∧
    (query_claude (.ok ["a", "b"] [[some "1", some "x"], [some "2", none]])).csv =
      some "a,b\n1,x\n2," := by
  have h := claim_c1_csv_and_summary ["a", "b"]
    [[some "1", some "x"], [some "2", none]] (by decide)
  refine ⟨by decide, ?_, ?_⟩
  · rw [h.1]
    rfl
  · rw [h.2]
    rfl

/-- C2 is refuted as stated: on the text `"<@U1> hi <@U2>"` the claim predicts
the prompt `"hi <@U2>"` (only the leading mention token removed, no other part
of the text altered, then trimmed), but `re.sub` removes every occurrence of
the pattern, so the code extracts `"hi"`. -/
theorem claim_c2_counterexample :
    extractPrompt "<@U1> hi <@U2>" = "hi" ∧
    pyStrip "hi <@U2>" = "hi <@U2>" ∧
    ("hi" : String) ≠ "hi <@U2>" :=
  ⟨by decide, by decide, by decide⟩

/-- C2 amended: the extraction removes every mention token in the text, each
together with the whitespace immediately following it, then trims; in
particular when the text is a leading mention token (with following
whitespace) and a remainder containing no further mention token, the result is
exactly that remainder trimmed. -/
theorem claim_c2_amended (ids ws rest : List Char) (hids : ids ≠ [])
    (hidsP : ∀ c ∈ ids, isAZ09 c = true) (hws : ∀ c ∈ ws, isWS c = true)
    (hrest : hasMention rest = false) :
    extractPrompt (String.mk ('<' :: '@' :: (ids ++ '>' :: (ws ++ rest)))) =
      pyStrip (String.mk rest) := by
  have hm := matchMention_structured ids ws rest hids hidsP hws
  have hr : hasMention (rest.dropWhile isWS) = false := hasMention_dropWhile isWS hrest
  have hs := subMention_cons_match hm hr
  show String.mk (pyStripL (subMention ('<' :: '@' :: (ids ++ '>' :: (ws ++ rest))))) =
    String.mk (pyStripL rest)
  rw [hs]
  unfold pyStripL
  rw [dropWhile_dropWhile]

/-- Witness for the amended C2 on the text `"<@U1> hi"`. -/
theorem claim_c2_witness :
    extractPrompt (String.mk ('<' :: '@' :: (['U', '1'] ++ '>' :: ([' '] ++ ['h', 'i'])))) =
      pyStrip (String.mk ['h', 'i']) :=
  claim_c2_amended ['U', '1'] [' '] ['h', 'i'] (by decide) (by decide) (by decide) (by decide)

/-- C3: when executing the command or fetching results raises, `query_claude`
returns a summary embedding the exception text and no CSV, without re-raising
(the outcome is an ordinary return value); and on every exit path, whatever
the backend did, the connection is closed before returning. -/
theorem claim_c3_error_and_cleanup :
    (∀ e : String, (query_claude (.raises e)).message = "*Error:* `" ++ e ++ "`" ∧
       (query_claude (.raises e)).csv = none) ∧
    (∀ b : BackendRun, (query_claude b).connClosed = true) := by
  constructor
  · intro e
    exact ⟨rfl, rfl⟩
  · intro b
    rfl

/-- C4 is refuted as stated: a bot-authored direct-mention event is not
filtered out — `handle_mention` has no bot/subtype check, so on a mention
event with `bot_id` set it still reacts and calls the backend. -/
theorem claim_c4_counterexample :
    truthy botMentionEvent.bot_id = true ∧
    handle_mention botMentionEvent "22" (.ok ["a"] [[some "1"]]) ≠ [] ∧
    Effect.backendCall "hi" ∈ handle_mention botMentionEvent "22" (.ok ["a"] [[some "1"]]) :=
  ⟨by decide, by decide, by decide⟩

/-- C4 amended: only the plain-message handler filters bot-authored and
subtyped events (reading a set field as the code's truthiness test), and it
then performs no action; the mention handler never reads `bot_id` or
`subtype`, so its behaviour is unchanged by them. -/
theorem claim_c4_amended :
    (∀ (e : SlackEvent) (ackTs : String) (b : BackendRun),
       (truthy e.bot_id || truthy e.subtype) = true → handle_message e ackTs b = []) ∧
    (∀ (e : SlackEvent) (ackTs : String) (b : BackendRun),
       handle_mention e ackTs b =
         handle_mention { e with bot_id := none, subtype := none } ackTs b) := by
  constructor
  · intro e ackTs b h
    unfold handle_message
    simp [h]
  · intro e ackTs b
    rfl

/-- Witness for the amended C4 on a bot-authored plain message. -/
theorem claim_c4_witness :
    handle_message botMessageEvent "2" (.ok [] []) = [] :=
  claim_c4_amended.1 botMessageEvent "2" (.ok [] []) (by decide)

/-- C5: a successful backend command with zero rows yields exactly the
no-results marker `"_No results_"`, no CSV, and a closed connection. -/
theorem claim_c5_no_results (columns : List String) :
    query_claude (.ok columns []) =
      { message := "_No results_", csv := none, connClosed := true } := rfl

/-- C6: a mention event whose text extracts to the empty prompt gets exactly
one fixed instructional reply in the originating thread (plus the best-effort
reaction attempt), and nothing else: no acknowledgement message and no
backend call. -/
theorem claim_c6_empty_mention (e : SlackEvent) (ackTs : String) (b : BackendRun)
    (h : extractPrompt (e.text.getD "") = "") :
    handle_mention e ackTs b =
      [Effect.reactionsAdd e.channel e.ts "eyes",
       Effect.say instructionalReply e.channel (e.thread_ts.getD e.ts)] :=
  handle_mention_empty e ackTs b h

/-- Witness for C6 on text consisting of a mention token and whitespace. -/
theorem claim_c6_witness :
    handle_mention bareMentionEvent "6" (.raises "x") =
      [Effect.reactionsAdd "C9" "5" "eyes",
       Effect.say instructionalReply "C9" "5"] :=
  claim_c6_empty_mention bareMentionEvent "6" (.raises "x") (by decide)

/-- C7: a plain-message event with `bot_id` set, or with a subtype, or whose
text contains a mention token anywhere, produces no action at all; a set
field is read as the code's truthiness test (present and non-empty). -/
theorem claim_c7_message_filters (e : SlackEvent) (ackTs : String) (b : BackendRun)
    (h : truthy e.bot_id = true ∨ truthy e.subtype = true ∨
         hasMention (e.text.getD "").data = true) :
    handle_message e ackTs b = [] :=
  handle_message_filtered e ackTs b h

/-- Witness for C7 on a text with a mention token in the middle. -/
theorem claim_c7_witness :
    handle_message midMentionEvent "2" (.ok [] []) = [] :=
  claim_c7_message_filters midMentionEvent "2" (.ok [] []) (Or.inr (Or.inr (by decide)))

/-- C8: a plain-message event passing the bot/subtype/mention filters whose
trimmed text is empty is ignored silently: no reply of any kind and no
backend call. -/
theorem claim_c8_empty_message (e : SlackEvent) (ackTs : String) (b : BackendRun)
    (h1 : truthy e.bot_id = false) (h2 : truthy e.subtype = false)
    (h3 : hasMention (e.text.getD "").data = false)
    (h4 : pyStrip (e.text.getD "") = "") :
    handle_message e ackTs b = [] :=
  handle_message_empty e ackTs b h1 h2 h3 h4

/-- Witness for C8 on a whitespace-only text. -/
theorem claim_c8_witness :
    handle_message blankTextEvent "2" (.raises "x") = [] :=
  claim_c8_empty_message blankTextEvent "2" (.raises "x")
    (by decide) (by decide) (by decide) (by decide)

/-- C9: on every handled non-empty prompt (either path), the acknowledgement
is posted in the originating thread and then edited in place — the
`chatUpdate` carries the very `ackTs` the post returned — with the prompt and
the summary separated by a blank line; a `results.csv` file with the fixed
title is uploaded to the thread exactly when `query_claude` returned a CSV
payload, and no upload call happens when it returned none (a returned payload
is never the empty string, so the code's truthiness test agrees with
presence). -/
theorem claim_c9_resolution (e : SlackEvent) (ackTs : String) (b : BackendRun) :
    (extractPrompt (e.text.getD "") ≠ "" →
       handle_mention e ackTs b =
         [Effect.reactionsAdd e.channel e.ts "eyes",
          Effect.chatPostMessage e.channel (e.thread_ts.getD e.ts)
            (workingText (extractPrompt (e.text.getD ""))),
          Effect.backendCall (extractPrompt (e.text.getD "")),
          Effect.chatUpdate e.channel ackTs
            (resolvedText (extractPrompt (e.text.getD "")) (query_claude b).message)]
         ++ uploadActions e.channel (e.thread_ts.getD e.ts) (query_claude b).csv) ∧
    (truthy e.bot_id = false → truthy e.subtype = false →
     hasMention (e.text.getD "").data = false → pyStrip (e.text.getD "") ≠ "" →
       handle_message e ackTs b =
         [Effect.chatPostMessage e.channel (e.thread_ts.getD e.ts)
            (workingText (pyStrip (e.text.getD ""))),
          Effect.backendCall (pyStrip (e.text.getD "")),
          Effect.chatUpdate e.channel ackTs
            (resolvedText (pyStrip (e.text.getD "")) (query_claude b).message)]
         ++ uploadActions e.channel (e.thread_ts.getD e.ts) (query_claude b).csv) ∧
    (∀ channel thread_ts : String,
       ((query_claude b).csv = none →
          uploadActions channel thread_ts (query_claude b).csv = []) ∧
       (∀ c : String, (query_claude b).csv = some c →
          uploadActions channel thread_ts (query_claude b).csv =
            [Effect.filesUpload channel thread_ts c "results.csv" "Query Results"])) := by
  refine ⟨handle_mention_nonempty e ackTs b, handle_message_nonempty e ackTs b, ?_⟩
  intro channel thread_ts
  constructor
  · intro h
    rw [h]
    rfl
  · intro c hc
    rw [hc]
    unfold uploadActions
    simp [query_csv_ne_empty hc]

/-- Witness for C9: the end-to-end scenario of the specification, mention
text `"<@U123> show me sales"` against the two-row example result. -/
theorem claim_c9_witness :
    handle_mention salesMentionEvent "42" exampleRun =
      [Effect.reactionsAdd "C1" "1" "eyes",
       Effect.chatPostMessage "C1" "1" (workingText "show me sales"),
       Effect.backendCall "show me sales",
       Effect.chatUpdate "C1" "42"
         (resolvedText "show me sales" "Returned 2 row(s), 2 column(s)"),
       Effect.filesUpload "C1" "1" "a,b\n1,x\n2," "results.csv" "Query Results"] := by
  have h := (claim_c9_resolution salesMentionEvent "42" exampleRun).1 (by decide)
  rw [h]
  decide

/-- C10: an event whose payload has no `text` field is handled as empty text:
the mention handler sends the single instructional reply and makes no backend
call, and the message handler (once past the bot/subtype filters) does
nothing at all. -/
theorem claim_c10_missing_text (e : SlackEvent) (ackTs : String) (b : BackendRun)
    (h : e.text = none) :
    handle_mention e ackTs b =
      [Effect.reactionsAdd e.channel e.ts "eyes",
       Effect.say instructionalReply e.channel (e.thread_ts.getD e.ts)] ∧
    (truthy e.bot_id = false → truthy e.subtype = false →
       handle_message e ackTs b = []) := by
  have htext : e.text.getD "" = "" := by rw [h]; rfl
  constructor
  · exact handle_mention_empty e ackTs b (by rw [htext]; rfl)
  · intro h1 h2
    exact handle_message_empty e ackTs b h1 h2 (by rw [htext]; rfl) (by rw [htext]; rfl)

/-- Witness for C10 on an event without a `text` field. -/
theorem claim_c10_witness :
    handle_mention noTextEvent "8" (.raises "x") =
      [Effect.reactionsAdd "C3" "7" "eyes", Effect.say instructionalReply "C3" "7"] ∧
    handle_message noTextEvent "8" (.raises "x") = [] := by
  have h := claim_c10_missing_text noTextEvent "8" (.raises "x") rfl
  exact ⟨h.1, h.2 rfl rfl⟩
